import Mathlib

/-!
# OKY website — segmented-control verification

Shallow embedding of the two segmented-control instances in
`src/assets/main.js` (mirrored in the second copy of the script):

* the capabilities tabs (`initCapabilitiesTabs`, lines 228–282): pills with
  an `active` class, `aria-selected`, `tabIndex`, indexed content panels
  (`hidden` + `is-active`), a sliding underline, hover preview and
  ArrowLeft/ArrowRight keyboard navigation that also moves DOM focus;
* the contrast switcher (IIFE at lines 334–371): `.seg` pills with an
  `active` class, two fixed panels `#do-panel` / `#dont-panel`, a sliding
  thumb, keyboard navigation without focus management, and a guard that
  only checks the container.

Pixel measurements are modelled as integers; the DOM elements the code
queries are modelled as explicit record fields, with `Option` where the
source can encounter a `null` element.  A `Bool` component paired with a
resulting state records whether a `TypeError` escaped (`true` = the
handler threw on a `null` dereference).
-/

namespace OkyWeb

/-- Inline style written to a sliding indicator element: `style.width` (px)
and the `translateX` offset (px) of `style.transform`. -/
structure Indicator where
  width : Int
  offsetX : Int
  deriving Repr, DecidableEq

/-- JavaScript `Array.prototype.findIndex`: index of the first element
satisfying `p`, and `-1` when none does. -/
def jsFindIndex {α : Type} (p : α → Bool) (l : List α) : Int :=
  match l.findIdx? p with
  | some k => (k : Int)
  | none => -1

/-! ## Capabilities tabs (`initCapabilitiesTabs`) -/

/-- Observable state of one `.pill` element: the `active` class, the
`aria-selected` attribute and the `tabIndex` property. -/
structure PillState where
  active : Bool
  ariaSelected : String
  tabIndex : Int
  deriving Repr, DecidableEq

/-- Observable state of one `.cap-panel` element: the `hidden` property and
the `is-active` class. -/
structure PanelState where
  hidden : Bool
  isActive : Bool
  deriving Repr, DecidableEq

/-- The DOM state the capabilities-tabs control reads and writes.  `focus`
records which pill currently holds DOM focus (`none` = focus is elsewhere
on the page). -/
structure TabsState where
  pills : List PillState
  panels : List PanelState
  underline : Indicator
  focus : Option Nat
  deriving Repr, DecidableEq

/-- Layout values the control reads from the layout engine:
`pills[k].getBoundingClientRect().left` / `.width`,
`wrap.getBoundingClientRect().left`, `wrap.scrollLeft` and the computed
left padding of the wrap (the capabilities code never reads the padding;
it is carried here so the spec's geometry formula can be stated against
the same measurements). -/
structure TabsGeom where
  pillLeft : Nat → Int
  pillWidth : Nat → Int
  wrapLeft : Int
  scrollLeft : Int
  padLeft : Int

/-- The indicator style `moveUnderline` computes for pill `k`:
`width = pillRect.width`,
`x = pillRect.left - wrapRect.left + wrap.scrollLeft`. -/
def underlineTarget (g : TabsGeom) (k : Nat) : Indicator :=
  { width := g.pillWidth k
    offsetX := g.pillLeft k - g.wrapLeft + g.scrollLeft }

/-- `moveUnderline(el)` where `el` is `pills[k]`.  The source dereferences
`el` with no null check, so callers only invoke it on an existing pill. -/
def moveUnderline (g : TabsGeom) (k : Nat) (s : TabsState) : TabsState :=
  { s with underline := underlineTarget g k }

/-- `setActive(index)` of the capabilities tabs: for every pill `i` set the
`active` class, `aria-selected` (as the strings `"true"` / `"false"`) and
`tabIndex` from `on = (i === index)`; for every panel `i` set `hidden = !on`
and the `is-active` class from `on`; finally `moveUnderline(pills[index])`. -/
def tabsSetActive (g : TabsGeom) (index : Nat) (s : TabsState) : TabsState :=
  let s1 : TabsState :=
    { s with
      pills := s.pills.mapIdx fun i _p =>
        let isOn := decide (i = index)
        { active := isOn
          ariaSelected := if isOn then "true" else "false"
          tabIndex := if isOn then 0 else -1 }
      panels := s.panels.mapIdx fun i _pa =>
        let isOn := decide (i = index)
        { hidden := !isOn, isActive := isOn } }
  moveUnderline g index s1

/-- The `mouseenter` handler: `e.target.closest('.pill')` either finds a
pill `j` (then `moveUnderline(pill)`) or not (then nothing happens). -/
def tabsMouseEnter (g : TabsGeom) (hovered : Option Nat) (s : TabsState) :
    TabsState :=
  match hovered with
  | some j => moveUnderline g j s
  | none => s

/-- The `mouseleave` handler: `moveUnderline($('.pill.active', wrap))`,
i.e. the underline snaps back to the first pill carrying the `active`
class.  After initialization such a pill always exists; were it missing,
the source would throw on the null dereference inside `moveUnderline`
(the claims below are stated under an explicit active-pill hypothesis,
so that branch is never relied upon). -/
def tabsMouseLeave (g : TabsGeom) (s : TabsState) : TabsState :=
  match s.pills.findIdx? (fun p => p.active) with
  | some k => moveUnderline g k s
  | none => s

/-- The capabilities `keydown` handler.  `curr` is
`pills.findIndex(p => p.classList.contains('active'))`; on `ArrowRight`
it runs `setActive((curr + 1) % pills.length)` and focuses that pill, on
`ArrowLeft` the same with `(curr - 1 + pills.length) % pills.length`; any
other key does nothing.  JavaScript `%` on integers is the truncated
remainder, i.e. `Int.tmod`. -/
def tabsKeydown (g : TabsGeom) (key : String) (s : TabsState) : TabsState :=
  let curr : Int := jsFindIndex (fun p => p.active) s.pills
  let n : Int := (s.pills.length : Int)
  if key = "ArrowRight" then
    let nxt : Nat := ((curr + 1).tmod n).toNat
    let s1 := tabsSetActive g nxt s
    { s1 with focus := some nxt }
  else if key = "ArrowLeft" then
    let nxt : Nat := ((curr - 1 + n).tmod n).toNat
    let s1 := tabsSetActive g nxt s
    { s1 with focus := some nxt }
  else s

/-- What the `initCapabilitiesTabs` IIFE finds in the markup: whether
`$('#capabilities .pill-tabs')` and `$('.pill-underline', wrap)` exist,
and the initial state of the pills, panels and underline. -/
structure TabsDoc where
  wrapPresent : Bool
  underlinePresent : Bool
  dom : TabsState

/-- The body of `initCapabilitiesTabs`: queries + guard
(`if (!wrap || !pills.length || !panels.length || !underline) return;`),
then handler attachment and the initial
`setActive(initialIndex >= 0 ? initialIndex : 0)`.  Returns the resulting
DOM state and whether the control initialized (`false` = the guard
returned early: nothing was mutated and no handler was attached, so every
later click/key/hover/resize is a no-op for this control). -/
def tabsInit (g : TabsGeom) (d : TabsDoc) : TabsState × Bool :=
  let pills := if d.wrapPresent then d.dom.pills else []
  let underlineFound := d.wrapPresent && d.underlinePresent
  if d.wrapPresent && !pills.isEmpty && !d.dom.panels.isEmpty &&
      underlineFound then
    let initialIndex : Int := jsFindIndex (fun p => p.active) d.dom.pills
    (tabsSetActive g (if 0 ≤ initialIndex then initialIndex.toNat else 0)
      d.dom, true)
  else (d.dom, false)

/-! ## Contrast switcher (the do / don't IIFE) -/

/-- The DOM state the contrast switcher reads and writes.  `segsActive` is
the `active` class of each `.seg`; `thumb` is the `.seg-underline` style
(`none` = element missing); `panelDoHidden` / `panelDontHidden` are the
`hidden` properties of `#do-panel` / `#dont-panel` (`none` = element
missing).  `focus` records which seg holds DOM focus; this instance never
calls `focus()`. -/
structure SegDom where
  wrapPresent : Bool
  segsActive : List Bool
  thumb : Option Indicator
  panelDoHidden : Option Bool
  panelDontHidden : Option Bool
  focus : Option Nat
  deriving Repr, DecidableEq

/-- Layout values the contrast switcher reads: `pills[k].offsetLeft`,
`pills[k].offsetWidth` and
`parseFloat(getComputedStyle(wrap).paddingLeft)`. -/
structure SegGeom where
  offsetLeft : Nat → Int
  offsetWidth : Nat → Int
  padLeft : Int

/-- `moveThumb(el)`: `if (!el) return;` then write
`width = el.offsetWidth`, `x = el.offsetLeft - paddingLeft` to the thumb
style.  Writing through a `null` thumb throws — recorded in the second
component. -/
def moveThumb (g : SegGeom) (el : Option Nat) (d : SegDom) : SegDom × Bool :=
  match el with
  | none => (d, false)
  | some k =>
    match d.thumb with
    | none => (d, true)
    | some _ =>
      ({ d with
          thumb := some
            { width := g.offsetWidth k
              offsetX := g.offsetLeft k - g.padLeft } }, false)

/-- `setActive(i)` of the contrast switcher: toggle the `active` class of
every seg from `idx === i`, then `panelDo.hidden = !(i === 0)` and
`panelDont.hidden = (i === 0)` (each write throws when the panel element
is missing), then `moveThumb(pills[i])` (`pills[i]` is `undefined` when
`i` is out of range, in which case `moveThumb` returns immediately). -/
def segSetActive (g : SegGeom) (i : Nat) (d : SegDom) : SegDom × Bool :=
  let d1 : SegDom :=
    { d with segsActive := d.segsActive.mapIdx fun idx _ => decide (idx = i) }
  let showDo := decide (i = 0)
  match d1.panelDoHidden with
  | none => (d1, true)
  | some _ =>
    let d2 : SegDom := { d1 with panelDoHidden := some (!showDo) }
    match d2.panelDontHidden with
    | none => (d2, true)
    | some _ =>
      let d3 : SegDom := { d2 with panelDontHidden := some showDo }
      moveThumb g (if i < d3.segsActive.length then some i else none) d3

/-- The contrast `keydown` handler: same index arithmetic as the
capabilities tabs, but no `focus()` call at all; any other key does
nothing. -/
def segKeydown (g : SegGeom) (key : String) (d : SegDom) : SegDom × Bool :=
  let curr : Int := jsFindIndex id d.segsActive
  let n : Int := (d.segsActive.length : Int)
  if key = "ArrowRight" then
    segSetActive g ((curr + 1).tmod n).toNat d
  else if key = "ArrowLeft" then
    segSetActive g ((curr - 1 + n).tmod n).toNat d
  else (d, false)

/-- The contrast-switcher IIFE body: the only guard is
`if (!wrap) return;`; afterwards handlers are attached and
`setActive(Math.max(0, pills.findIndex(p => p.classList.contains('active'))))`
runs unconditionally. -/
def segInit (g : SegGeom) (d : SegDom) : SegDom × Bool :=
  if d.wrapPresent then
    let initial : Nat := (max 0 (jsFindIndex id d.segsActive)).toNat
    segSetActive g initial d
  else (d, false)

/-! ## The spec's geometry formulas (refinement comparison only)

The two definitions below are taken from the WORDS of the spec, not from
the source: the indicator offset is the active item's position "relative
to the container's content origin (accounting for horizontal scroll
offset and left padding)".  They exist solely to be compared with the
offsets the source actually writes. -/

/-- Spec formula for the capabilities underline: the pill's
viewport-relative left, un-scrolled by `scrollLeft`, measured from the
container's content origin `wrapLeft + padLeft`. -/
def specUnderlineOffset (g : TabsGeom) (k : Nat) : Int :=
  g.pillLeft k + g.scrollLeft - (g.wrapLeft + g.padLeft)

/-- Spec formula for the contrast thumb: `offsetLeft` is already relative
to the container and independent of scrolling, so the content-origin
offset is `offsetLeft - padLeft`. -/
def specThumbOffset (g : SegGeom) (k : Nat) : Int :=
  g.offsetLeft k - g.padLeft

/-! ## Concrete instances (used to evaluate the theorems below) -/

/-- A concrete capabilities layout: pill `k` measured at `left = 40k`,
width 40, container at 0, unscrolled, left padding 10. -/
def exTabsGeom : TabsGeom :=
  { pillLeft := fun k => 40 * (k : Int)
    pillWidth := fun _ => 40
    wrapLeft := 0
    scrollLeft := 0
    padLeft := 10 }

/-- A pill in the state `setActive` gives the selected pill. -/
def pillOn : PillState :=
  { active := true, ariaSelected := "true", tabIndex := 0 }

/-- A pill in the state `setActive` gives a deselected pill. -/
def pillOff : PillState :=
  { active := false, ariaSelected := "false", tabIndex := -1 }

/-- A visible capabilities panel. -/
def panelShown : PanelState := { hidden := false, isActive := true }

/-- A hidden capabilities panel. -/
def panelHidden : PanelState := { hidden := true, isActive := false }

/-- A concrete three-pill, three-panel capabilities state with pill 0
active. -/
def exTabsState : TabsState :=
  { pills := [pillOn, pillOff, pillOff]
    panels := [panelShown, panelHidden, panelHidden]
    underline := { width := 40, offsetX := 0 }
    focus := none }

/-- Well-formed capabilities markup built over `exTabsState`. -/
def exTabsDoc : TabsDoc :=
  { wrapPresent := true, underlinePresent := true, dom := exTabsState }

/-- Capabilities markup whose host forgot the `.cap-panel` elements. -/
def exTabsDocNoPanels : TabsDoc :=
  { wrapPresent := true
    underlinePresent := true
    dom :=
      { pills := [pillOn, pillOff]
        panels := []
        underline := { width := 0, offsetX := 0 }
        focus := none } }

/-- Capabilities markup in which the host marked two pills active. -/
def exTabsDocTwoMarked : TabsDoc :=
  { wrapPresent := true
    underlinePresent := true
    dom :=
      { pills := [pillOff, pillOn, pillOn]
        panels := [panelHidden, panelShown, panelHidden]
        underline := { width := 0, offsetX := 0 }
        focus := none } }

/-- A concrete contrast-switcher layout: seg `k` at `offsetLeft = 8 + 60k`,
width 56, container left padding 8. -/
def exSegGeom : SegGeom :=
  { offsetLeft := fun k => 8 + 60 * (k : Int)
    offsetWidth := fun _ => 56
    padLeft := 8 }

/-- A healthy two-seg contrast DOM with seg 0 active and both panels
present. -/
def exSegDom : SegDom :=
  { wrapPresent := true
    segsActive := [true, false]
    thumb := some { width := 56, offsetX := 0 }
    panelDoHidden := some false
    panelDontHidden := some true
    focus := none }

/-- Contrast markup with the container present but no `.seg` items. -/
def exSegDomNoItems : SegDom :=
  { wrapPresent := true
    segsActive := []
    thumb := some { width := 0, offsetX := 0 }
    panelDoHidden := some true
    panelDontHidden := some false
    focus := none }

/-- Contrast markup with the container absent altogether. -/
def exSegDomNoWrap : SegDom :=
  { wrapPresent := false
    segsActive := []
    thumb := none
    panelDoHidden := none
    panelDontHidden := none
    focus := none }

/-- Capabilities markup whose host forgot the `.pill-underline` element. -/
def exTabsDocNoUnderline : TabsDoc :=
  { wrapPresent := true, underlinePresent := false, dom := exTabsState }

/-- Contrast markup with the container present but `#do-panel` missing. -/
def exSegDomNoDoPanel : SegDom :=
  { wrapPresent := true
    segsActive := [true, false]
    thumb := some { width := 0, offsetX := 0 }
    panelDoHidden := none
    panelDontHidden := some false
    focus := none }

/-! ## Helper lemmas -/

theorem tabsSetActive_def (g : TabsGeom) (index : Nat) (s : TabsState) :
    tabsSetActive g index s =
      { pills := s.pills.mapIdx fun i _p =>
          { active := decide (i = index)
            ariaSelected := if decide (i = index) then "true" else "false"
            tabIndex := if decide (i = index) then 0 else -1 }
        panels := s.panels.mapIdx fun i _pa =>
          { hidden := !decide (i = index), isActive := decide (i = index) }
        underline := underlineTarget g index
        focus := s.focus } := rfl

theorem mapIdx_ignore_eq {α β γ : Type} (f : Nat → β) (l₁ : List α)
    (l₂ : List γ) (h : l₁.length = l₂.length) :
    (l₁.mapIdx fun j _ => f j) = l₂.mapIdx fun j _ => f j := by
  apply List.ext_getElem
  · simp [h]
  · intro n h₁ h₂
    simp

theorem mapIdx_ignore_congr {α β γ : Type} (f : Nat → α → β)
    (f₂ : Nat → γ → β) (l₁ : List α) (l₂ : List γ)
    (hf : ∀ j a b, f j a = f₂ j b) (h : l₁.length = l₂.length) :
    l₁.mapIdx f = l₂.mapIdx f₂ := by
  apply List.ext_getElem
  · simp [h]
  · intro n h₁ h₂
    rw [List.getElem_mapIdx, List.getElem_mapIdx]
    exact hf n _ _

theorem jsFindIndex_eq_some {α : Type} (p : α → Bool) (l : List α) (k : Nat)
    (h : l.findIdx? p = some k) : jsFindIndex p l = (k : Int) := by
  simp [jsFindIndex, h]

theorem toNat_tmod_right (curr n : Nat) :
    (((curr : Int) + 1).tmod (n : Int)).toNat = (curr + 1) % n := by
  rw [Int.tmod_eq_emod (by omega) (Int.ofNat_nonneg n)]
  rw [show ((curr : Int) + 1) = ((curr + 1 : Nat) : Int) by omega,
    ← Int.natCast_mod, Int.toNat_natCast]

theorem toNat_tmod_left (curr n : Nat) (h : curr < n) :
    (((curr : Int) - 1 + (n : Int)).tmod (n : Int)).toNat =
      (curr + n - 1) % n := by
  rw [Int.tmod_eq_emod (by omega) (Int.ofNat_nonneg n)]
  rw [show ((curr : Int) - 1 + (n : Int)) = ((curr + n - 1 : Nat) : Int) by
    omega, ← Int.natCast_mod, Int.toNat_natCast]

theorem segSetActive_def (g : SegGeom) (i : Nat) (d : SegDom)
    (hdo : d.panelDoHidden.isSome) (hdont : d.panelDontHidden.isSome)
    (hth : d.thumb.isSome) (hi : i < d.segsActive.length) :
    segSetActive g i d =
      ({ wrapPresent := d.wrapPresent
         segsActive := d.segsActive.mapIdx fun idx _ => decide (idx = i)
         thumb := some { width := g.offsetWidth i
                         offsetX := g.offsetLeft i - g.padLeft }
         panelDoHidden := some (!decide (i = 0))
         panelDontHidden := some (decide (i = 0))
         focus := d.focus }, false) := by
  obtain ⟨w, segs, th, pdo, pdont, fo⟩ := d
  obtain ⟨b1, rfl⟩ := Option.isSome_iff_exists.mp hdo
  obtain ⟨b2, rfl⟩ := Option.isSome_iff_exists.mp hdont
  obtain ⟨t, rfl⟩ := Option.isSome_iff_exists.mp hth
  simp only [segSetActive, moveThumb, List.length_mapIdx]
  simp only [List.length_mapIdx] at hi ⊢
  simp [hi]

theorem segSetActive_focus_eq (g : SegGeom) (i : Nat) (d : SegDom) :
    (segSetActive g i d).1.focus = d.focus := by
  obtain ⟨w, segs, th, pdo, pdont, fo⟩ := d
  cases pdo <;> cases pdont <;> cases th <;>
    simp [segSetActive, moveThumb] <;> split <;> simp

theorem segSetActive_segs (g : SegGeom) (i : Nat) (d : SegDom) :
    (segSetActive g i d).1.segsActive =
      d.segsActive.mapIdx fun idx _ => decide (idx = i) := by
  obtain ⟨w, segs, th, pdo, pdont, fo⟩ := d
  cases pdo <;> cases pdont <;> cases th <;>
    simp [segSetActive, moveThumb] <;> split <;> simp

theorem segInit_of_wrap (g : SegGeom) (d : SegDom)
    (hw : d.wrapPresent = true) :
    segInit g d =
      segSetActive g (max 0 (jsFindIndex id d.segsActive)).toNat d := by
  simp [segInit, hw]

theorem tabsInit_guard_fail (g : TabsGeom) (d : TabsDoc)
    (h : d.wrapPresent = false ∨ d.dom.pills = [] ∨ d.dom.panels = [] ∨
      d.underlinePresent = false) :
    tabsInit g d = (d.dom, false) := by
  rcases h with h | h | h | h <;> simp [tabsInit, h]

theorem tabsInit_of_guard (g : TabsGeom) (d : TabsDoc)
    (hw : d.wrapPresent = true) (hp : d.dom.pills ≠ [])
    (hpa : d.dom.panels ≠ []) (hu : d.underlinePresent = true) :
    tabsInit g d =
      (tabsSetActive g
        (if 0 ≤ jsFindIndex (fun p => p.active) d.dom.pills then
          (jsFindIndex (fun p => p.active) d.dom.pills).toNat
        else 0) d.dom, true) := by
  simp [tabsInit, hw, hu, hp, hpa]

theorem initialIndex_eq_getD (l : List PillState) :
    (if 0 ≤ jsFindIndex (fun p => p.active) l then
      (jsFindIndex (fun p => p.active) l).toNat
    else 0) = (l.findIdx? fun p => p.active).getD 0 := by
  unfold jsFindIndex
  cases h : l.findIdx? fun p => p.active <;> simp [h]

theorem segInitial_eq_getD (l : List Bool) :
    (max 0 (jsFindIndex id l)).toNat = (l.findIdx? id).getD 0 := by
  unfold jsFindIndex
  cases h : l.findIdx? id <;> simp [h]

theorem findIdx?_getD_lowest {α : Type} (p : α → Bool) (l : List α) (k : Nat)
    (hk : (l.findIdx? p).getD 0 = k) :
    ∀ j (hj : j < l.length), j < k → p (l.get ⟨j, hj⟩) = false := by
  intro j hj hjk
  cases h : l.findIdx? p with
  | none =>
    rw [h] at hk
    simp at hk
    omega
  | some m =>
    rw [h] at hk
    simp at hk
    subst hk
    obtain ⟨hm, hpm, hmin⟩ := List.findIdx?_eq_some_iff_getElem.mp h
    have hj2 := hmin j hjk
    simpa using hj2

theorem findIdx?_getD_lt {α : Type} (p : α → Bool) (l : List α)
    (hne : l ≠ []) : (l.findIdx? p).getD 0 < l.length := by
  cases h : l.findIdx? p with
  | none => simpa using List.length_pos.mpr hne
  | some m =>
    obtain ⟨hm, -, -⟩ := List.findIdx?_eq_some_iff_getElem.mp h
    simpa using hm

theorem tabsSetActive_pills_get (g : TabsGeom) (index : Nat) (s : TabsState)
    (j : Nat) (hj : j < (tabsSetActive g index s).pills.length) :
    (tabsSetActive g index s).pills.get ⟨j, hj⟩ =
      { active := decide (j = index)
        ariaSelected := if decide (j = index) then "true" else "false"
        tabIndex := if decide (j = index) then 0 else -1 } := by
  simp [tabsSetActive_def]

theorem tabsSetActive_panels_get (g : TabsGeom) (index : Nat) (s : TabsState)
    (j : Nat) (hj : j < (tabsSetActive g index s).panels.length) :
    (tabsSetActive g index s).panels.get ⟨j, hj⟩ =
      { hidden := !decide (j = index), isActive := decide (j = index) } := by
  simp [tabsSetActive_def]

/-! ## Claim theorems -/

/-- C1: for every segmented-control instance with `N ≥ 1` items and every
index `i < N`, after `setActive(i)` completes, exactly one item carries
the `active` marker and it is item `i`; every other item's marker is
cleared by the same call.  Stated for both instances; the contrast call
completes without throwing given its panel and thumb elements exist. -/
theorem setActive_exactly_one_active
    (g : TabsGeom) (s : TabsState) (i : Nat) (hi : i < s.pills.length)
    (gs : SegGeom) (d : SegDom) (k : Nat) (hk : k < d.segsActive.length)
    (hdo : d.panelDoHidden.isSome) (hdont : d.panelDontHidden.isSome)
    (hth : d.thumb.isSome) :
    ((tabsSetActive g i s).pills.length = s.pills.length ∧
      ∀ j (hj : j < (tabsSetActive g i s).pills.length),
        (((tabsSetActive g i s).pills.get ⟨j, hj⟩).active = true ↔ j = i)) ∧
    ((segSetActive gs k d).2 = false ∧
      (segSetActive gs k d).1.segsActive.length = d.segsActive.length ∧
      ∀ j (hj : j < (segSetActive gs k d).1.segsActive.length),
        ((segSetActive gs k d).1.segsActive.get ⟨j, hj⟩ = true ↔ j = k)) := by
  refine ⟨⟨by simp [tabsSetActive_def], fun j hj => ?_⟩, ?_⟩
  · rw [tabsSetActive_pills_get]
    simp
  · rw [segSetActive_def gs k d hdo hdont hth hk]
    refine ⟨rfl, by simp, fun j hj => ?_⟩
    simp

/-- C1 witness: evaluated on the concrete three-pill capabilities state
(`setActive(1)` makes pill 1 the unique active pill) and the concrete
two-seg contrast state (`setActive(1)` completes without throwing). -/
theorem setActive_exactly_one_active_witness :
    ((tabsSetActive exTabsGeom 1 exTabsState).pills.get
      ⟨1, by decide⟩).active = true ∧
    (segSetActive exSegGeom 1 exSegDom).2 = false :=
  ⟨((setActive_exactly_one_active exTabsGeom exTabsState 1 (by decide)
      exSegGeom exSegDom 1 (by decide) (by decide) (by decide)
      (by decide)).1.2 1 (by decide)).mpr rfl,
    (setActive_exactly_one_active exTabsGeom exTabsState 1 (by decide)
      exSegGeom exSegDom 1 (by decide) (by decide) (by decide)
      (by decide)).2.1⟩

/-- C7: with the indexed panel policy (the capabilities tabs), after
`setActive(i)` panel `j` is visible (`hidden = false`) iff `j = i`, and
carries the `is-active` class iff `j = i`, for every `j` below the panel
count. -/
theorem setActive_indexed_panels
    (g : TabsGeom) (s : TabsState) (i : Nat) (hi : i < s.pills.length) :
    ∀ j (hj : j < (tabsSetActive g i s).panels.length),
      ((((tabsSetActive g i s).panels.get ⟨j, hj⟩).hidden = false) ↔ j = i) ∧
      ((((tabsSetActive g i s).panels.get ⟨j, hj⟩).isActive = true) ↔
        j = i) := by
  intro j hj
  rw [tabsSetActive_panels_get]
  constructor <;> simp

/-- C7 witness: on the concrete three-panel instance, after `setActive(1)`
panel 1 is visible. -/
theorem setActive_indexed_panels_witness :
    ((tabsSetActive exTabsGeom 1 exTabsState).panels.get
      ⟨1, by decide⟩).hidden = false :=
  ((setActive_indexed_panels exTabsGeom exTabsState 1 (by decide) 1
    (by decide)).1).mpr rfl

/-- C6: with the binary panel policy (the contrast switcher), after
`setActive(i)` the primary panel (`#do-panel`) is visible iff `i = 0` and
the secondary (`#dont-panel`) is visible iff `i ≠ 0`; the call completes
without throwing. -/
theorem setActive_binary_panels
    (gs : SegGeom) (d : SegDom) (i : Nat)
    (hdo : d.panelDoHidden.isSome) (hdont : d.panelDontHidden.isSome)
    (hth : d.thumb.isSome) (hi : i < d.segsActive.length) :
    (segSetActive gs i d).2 = false ∧
    (segSetActive gs i d).1.panelDoHidden = some (!decide (i = 0)) ∧
    (segSetActive gs i d).1.panelDontHidden = some (decide (i = 0)) := by
  rw [segSetActive_def gs i d hdo hdont hth hi]
  exact ⟨rfl, rfl, rfl⟩

/-- C6 witness: on the concrete contrast state, `setActive(1)` hides the
do-panel and shows the don't-panel, and `setActive(0)` does the reverse. -/
theorem setActive_binary_panels_witness :
    (segSetActive exSegGeom 1 exSegDom).1.panelDoHidden = some true ∧
    (segSetActive exSegGeom 0 exSegDom).1.panelDontHidden = some true :=
  ⟨(setActive_binary_panels exSegGeom exSegDom 1 (by decide) (by decide)
      (by decide) (by decide)).2.1,
    (setActive_binary_panels exSegGeom exSegDom 0 (by decide) (by decide)
      (by decide) (by decide)).2.2⟩

/-- C8: the hover preview (`mouseenter` → `moveUnderline`) changes only
the indicator geometry — items, panels, focus, and hence the active index,
are untouched — and the `mouseleave` handler restores the indicator to the
geometry of the item at the true active index. -/
theorem preview_leaves_state
    (g : TabsGeom) (s : TabsState) (j k : Nat)
    (hact : s.pills.findIdx? (fun p => p.active) = some k) :
    (tabsMouseEnter g (some j) s).pills = s.pills ∧
    (tabsMouseEnter g (some j) s).panels = s.panels ∧
    (tabsMouseEnter g (some j) s).focus = s.focus ∧
    (tabsMouseEnter g (some j) s).underline = underlineTarget g j ∧
    tabsMouseLeave g (tabsMouseEnter g (some j) s) =
      { s with underline := underlineTarget g k } := by
  refine ⟨rfl, rfl, rfl, rfl, ?_⟩
  simp [tabsMouseEnter, moveUnderline, tabsMouseLeave, hact]

/-- C8 witness: hovering pill 2 of the concrete instance (whose active
pill is 0) leaves pills, panels and focus unchanged and the leave handler
snaps the underline back to pill 0. -/
theorem preview_leaves_state_witness :
    (tabsMouseEnter exTabsGeom (some 2) exTabsState).pills =
      exTabsState.pills ∧
    tabsMouseLeave exTabsGeom (tabsMouseEnter exTabsGeom (some 2)
      exTabsState) =
      { exTabsState with underline := underlineTarget exTabsGeom 0 } :=
  ⟨(preview_leaves_state exTabsGeom exTabsState 2 0 (by decide)).1,
    (preview_leaves_state exTabsGeom exTabsState 2 0 (by decide)).2.2.2.2⟩

/-- C9: `setActive(i)` is idempotent — calling it twice in a row leaves
exactly the state the first call produced, for both instances (and the
second contrast call again completes without throwing). -/
theorem setActive_idempotent
    (g : TabsGeom) (s : TabsState) (i : Nat)
    (gs : SegGeom) (d : SegDom) (k : Nat) (hk : k < d.segsActive.length)
    (hdo : d.panelDoHidden.isSome) (hdont : d.panelDontHidden.isSome)
    (hth : d.thumb.isSome) :
    tabsSetActive g i (tabsSetActive g i s) = tabsSetActive g i s ∧
    (segSetActive gs k (segSetActive gs k d).1).1 =
      (segSetActive gs k d).1 ∧
    (segSetActive gs k (segSetActive gs k d).1).2 = false := by
  constructor
  · rw [tabsSetActive_def g i (tabsSetActive g i s), tabsSetActive_def g i s]
    congr 1
    · exact mapIdx_ignore_congr _ _ _ _ (fun j a b => rfl)
        (by simp [tabsSetActive_def])
    · exact mapIdx_ignore_congr _ _ _ _ (fun j a b => rfl)
        (by simp [tabsSetActive_def])
  · have hk2 : k < (d.segsActive.mapIdx fun idx _ =>
        decide (idx = k)).length := by
      simpa using hk
    have h2 := segSetActive_def gs k
      { wrapPresent := d.wrapPresent
        segsActive := d.segsActive.mapIdx fun idx _ => decide (idx = k)
        thumb := some { width := gs.offsetWidth k
                        offsetX := gs.offsetLeft k - gs.padLeft }
        panelDoHidden := some (!decide (k = 0))
        panelDontHidden := some (decide (k = 0))
        focus := d.focus } rfl rfl rfl hk2
    rw [segSetActive_def gs k d hdo hdont hth hk]
    dsimp only
    rw [h2]
    refine ⟨?_, rfl⟩
    dsimp only
    congr 1
    exact mapIdx_ignore_congr _ _ _ _ (fun j a b => rfl) (by simp)

/-- C9 witness: evaluated at index 2 of the concrete capabilities state
and index 1 of the concrete contrast state. -/
theorem setActive_idempotent_witness :
    tabsSetActive exTabsGeom 2 (tabsSetActive exTabsGeom 2 exTabsState) =
      tabsSetActive exTabsGeom 2 exTabsState ∧
    (segSetActive exSegGeom 1 (segSetActive exSegGeom 1 exSegDom).1).1 =
      (segSetActive exSegGeom 1 exSegDom).1 :=
  ⟨(setActive_idempotent exTabsGeom exTabsState 2 exSegGeom exSegDom 1
      (by decide) (by decide) (by decide) (by decide)).1,
    (setActive_idempotent exTabsGeom exTabsState 2 exSegGeom exSegDom 1
      (by decide) (by decide) (by decide) (by decide)).2.1⟩

/-- C10: initialization calls `setActive` exactly once, with the index of
the lowest-indexed item already carrying the `active` marker (0 when none
is marked): that index is in range, no lower-indexed item is marked, the
resulting state is exactly `setActive` of that index, and afterwards the
lowest marked item is the unique active one — any other initially marked
item has been demoted.  Stated for both instances. -/
theorem init_seeds_lowest_marked
    (g : TabsGeom) (d : TabsDoc) (hw : d.wrapPresent = true)
    (hp : d.dom.pills ≠ []) (hpa : d.dom.panels ≠ [])
    (hu : d.underlinePresent = true) (k : Nat)
    (hk : (d.dom.pills.findIdx? fun p => p.active).getD 0 = k)
    (gs : SegGeom) (dd : SegDom) (hsw : dd.wrapPresent = true)
    (hne : dd.segsActive ≠ []) (m : Nat)
    (hm : (dd.segsActive.findIdx? id).getD 0 = m) :
    (k < d.dom.pills.length ∧
      (∀ j (hj : j < d.dom.pills.length), j < k →
        (d.dom.pills.get ⟨j, hj⟩).active = false) ∧
      tabsInit g d = (tabsSetActive g k d.dom, true) ∧
      ∀ j (hj : j < (tabsSetActive g k d.dom).pills.length),
        (((tabsSetActive g k d.dom).pills.get ⟨j, hj⟩).active = true ↔
          j = k)) ∧
    (m < dd.segsActive.length ∧
      (∀ j (hj : j < dd.segsActive.length), j < m →
        dd.segsActive.get ⟨j, hj⟩ = false) ∧
      segInit gs dd = segSetActive gs m dd ∧
      ∀ j (hj : j < (segSetActive gs m dd).1.segsActive.length),
        ((segSetActive gs m dd).1.segsActive.get ⟨j, hj⟩ = true ↔
          j = m)) := by
  have htabs : tabsInit g d = (tabsSetActive g k d.dom, true) := by
    rw [tabsInit_of_guard g d hw hp hpa hu, initialIndex_eq_getD, hk]
  have hseg : segInit gs dd = segSetActive gs m dd := by
    rw [segInit_of_wrap gs dd hsw, segInitial_eq_getD, hm]
  refine ⟨⟨hk ▸ findIdx?_getD_lt _ _ hp, findIdx?_getD_lowest _ _ k hk,
    htabs, ?_⟩, ⟨hm ▸ findIdx?_getD_lt _ _ hne, ?_, hseg, ?_⟩⟩
  · intro j hj
    rw [tabsSetActive_pills_get]
    simp
  · intro j hj hjm
    have hlow := findIdx?_getD_lowest id dd.segsActive m hm j hj hjm
    simpa using hlow
  · intro j
    have hs := segSetActive_segs gs m dd
    simp only [hs]
    intro hj
    simp [hs]

/-- C10 witness: on the concrete capabilities markup in which the host
marked pills 1 and 2 active, initialization seeds index 1 (the lowest
marked), demoting pill 2; and on the concrete contrast markup (seg 0
marked), initialization seeds index 0. -/
theorem init_seeds_lowest_marked_witness :
    tabsInit exTabsGeom exTabsDocTwoMarked =
      (tabsSetActive exTabsGeom 1 exTabsDocTwoMarked.dom, true) ∧
    ((tabsSetActive exTabsGeom 1 exTabsDocTwoMarked.dom).pills.get
      ⟨1, by decide⟩).active = true ∧
    segInit exSegGeom exSegDom = segSetActive exSegGeom 0 exSegDom :=
  ⟨(init_seeds_lowest_marked exTabsGeom exTabsDocTwoMarked rfl (by decide)
      (by decide) rfl 1 (by decide) exSegGeom exSegDom rfl (by decide) 0
      (by decide)).1.2.2.1,
    ((init_seeds_lowest_marked exTabsGeom exTabsDocTwoMarked rfl (by decide)
      (by decide) rfl 1 (by decide) exSegGeom exSegDom rfl (by decide) 0
      (by decide)).1.2.2.2 1 (by decide)).mpr rfl,
    (init_seeds_lowest_marked exTabsGeom exTabsDocTwoMarked rfl (by decide)
      (by decide) rfl 1 (by decide) exSegGeom exSegDom rfl (by decide) 0
      (by decide)).2.2.2.1⟩

/-- C2 counterexample: the contrast switcher constructed against markup
with its container present but an EMPTY item list still mutates the DOM —
the unconditional initial `setActive(0)` rewrites both panels' `hidden`
flags (here from `(true, false)` to `(false, true)`) — refuting
"construction with an empty item list performs no DOM mutation". -/
theorem contrast_init_empty_items_mutates :
    (segInit exSegGeom exSegDomNoItems).1 ≠ exSegDomNoItems ∧
    (segInit exSegGeom exSegDomNoItems).1.panelDoHidden = some false ∧
    (segInit exSegGeom exSegDomNoItems).1.panelDontHidden = some true := by
  decide

/-- C2 amended: the capabilities tabs control behaves exactly as claimed —
whenever the container, the item list, the panel list or the underline is
missing or empty, construction performs no DOM mutation and attaches no
handlers (inert no-op, no error).  The contrast switcher is a silent
no-op only when its container is absent: with the container present,
construction always runs `setActive` — with an empty item list it still
rewrites both panels' `hidden` flags, and with `#do-panel` missing it
throws a TypeError. -/
theorem init_missing_markup_behaviour
    (g : TabsGeom) (d : TabsDoc)
    (h : d.wrapPresent = false ∨ d.dom.pills = [] ∨ d.dom.panels = [] ∨
      d.underlinePresent = false)
    (gs : SegGeom) (d₁ d₂ d₃ : SegDom)
    (h₁ : d₁.wrapPresent = false)
    (h₂ : d₂.wrapPresent = true) (h₂e : d₂.segsActive = [])
    (h₂do : d₂.panelDoHidden.isSome) (h₂dont : d₂.panelDontHidden.isSome)
    (h₃ : d₃.wrapPresent = true) (h₃do : d₃.panelDoHidden = none) :
    tabsInit g d = (d.dom, false) ∧
    segInit gs d₁ = (d₁, false) ∧
    ((segInit gs d₂).1.panelDoHidden = some false ∧
      (segInit gs d₂).1.panelDontHidden = some true) ∧
    (segInit gs d₃).2 = true := by
  refine ⟨tabsInit_guard_fail g d h, by simp [segInit, h₁], ?_, ?_⟩
  · rw [segInit_of_wrap gs d₂ h₂]
    obtain ⟨w2, segs2, th2, pdo2, pdont2, fo2⟩ := d₂
    obtain ⟨b1, rfl⟩ := Option.isSome_iff_exists.mp h₂do
    obtain ⟨b2, rfl⟩ := Option.isSome_iff_exists.mp h₂dont
    simp only at h₂e
    subst h₂e
    simp [segSetActive, moveThumb, jsFindIndex]
  · rw [segInit_of_wrap gs d₃ h₃]
    obtain ⟨w3, segs3, th3, pdo3, pdont3, fo3⟩ := d₃
    simp only at h₃do
    subst h₃do
    simp [segSetActive]

/-- C2 witness: the capabilities control with the underline element
missing performs no mutation, and the contrast switcher with zero items
rewrites the do-panel's hidden flag. -/
theorem init_missing_markup_behaviour_witness :
    tabsInit exTabsGeom exTabsDocNoUnderline =
      (exTabsDocNoUnderline.dom, false) ∧
    (segInit exSegGeom exSegDomNoItems).1.panelDoHidden = some false :=
  ⟨(init_missing_markup_behaviour exTabsGeom exTabsDocNoUnderline
      (Or.inr (Or.inr (Or.inr rfl))) exSegGeom exSegDomNoWrap
      exSegDomNoItems exSegDomNoDoPanel rfl rfl rfl (by decide)
      (by decide) rfl rfl).1,
    (init_missing_markup_behaviour exTabsGeom exTabsDocNoUnderline
      (Or.inr (Or.inr (Or.inr rfl))) exSegGeom exSegDomNoWrap
      exSegDomNoItems exSegDomNoDoPanel rfl rfl rfl (by decide)
      (by decide) rfl rfl).2.2.1.1⟩

/-- C3 counterexample: on the concrete contrast instance (seg 0 active,
focus nowhere), ArrowRight activates seg 1 but does NOT give it focus —
the contrast keydown handler never calls `focus()` — refuting "after
either, the newly active item's element receives focus" for every
control. -/
theorem contrast_keydown_no_focus :
    (segKeydown exSegGeom "ArrowRight" exSegDom).1.segsActive =
      [false, true] ∧
    (segKeydown exSegGeom "ArrowRight" exSegDom).1.focus ≠ some 1 := by
  decide

/-- C3 amended: only ArrowRight / ArrowLeft are handled.  For the
capabilities tabs, ArrowRight performs `setActive((curr+1) mod N)`,
ArrowLeft performs `setActive((curr-1+N) mod N)`, and the newly active
pill receives focus.  The contrast switcher performs the same modular
`setActive` on both keys but moves no focus.  Any other key leaves the
state unchanged for both instances (no error). -/
theorem keydown_navigation
    (g : TabsGeom) (s : TabsState) (curr : Nat)
    (hc : s.pills.findIdx? (fun p => p.active) = some curr)
    (gs : SegGeom) (d : SegDom) (sc : Nat)
    (hsc : d.segsActive.findIdx? id = some sc)
    (key : String) (hkr : key ≠ "ArrowRight") (hkl : key ≠ "ArrowLeft") :
    tabsKeydown g "ArrowRight" s =
      { tabsSetActive g ((curr + 1) % s.pills.length) s with
          focus := some ((curr + 1) % s.pills.length) } ∧
    tabsKeydown g "ArrowLeft" s =
      { tabsSetActive g ((curr + s.pills.length - 1) % s.pills.length) s
          with
          focus := some ((curr + s.pills.length - 1) % s.pills.length) } ∧
    tabsKeydown g key s = s ∧
    segKeydown gs "ArrowRight" d =
      segSetActive gs ((sc + 1) % d.segsActive.length) d ∧
    segKeydown gs "ArrowLeft" d =
      segSetActive gs ((sc + d.segsActive.length - 1) %
        d.segsActive.length) d ∧
    (segKeydown gs "ArrowRight" d).1.focus = d.focus ∧
    (segKeydown gs "ArrowLeft" d).1.focus = d.focus ∧
    segKeydown gs key d = (d, false) := by
  have h1 : jsFindIndex (fun p => p.active) s.pills = (curr : Int) :=
    jsFindIndex_eq_some _ _ _ hc
  have hlt : curr < s.pills.length := by
    obtain ⟨h, -, -⟩ := List.findIdx?_eq_some_iff_getElem.mp hc
    exact h
  have h2 : jsFindIndex id d.segsActive = (sc : Int) :=
    jsFindIndex_eq_some _ _ _ hsc
  have hslt : sc < d.segsActive.length := by
    obtain ⟨h, -, -⟩ := List.findIdx?_eq_some_iff_getElem.mp hsc
    exact h
  have hlr : ("ArrowLeft" : String) ≠ "ArrowRight" := by decide
  have hsr : segKeydown gs "ArrowRight" d =
      segSetActive gs ((sc + 1) % d.segsActive.length) d := by
    simp [segKeydown, h2, toNat_tmod_right]
  have hsl : segKeydown gs "ArrowLeft" d =
      segSetActive gs ((sc + d.segsActive.length - 1) %
        d.segsActive.length) d := by
    simp [segKeydown, h2, hlr, toNat_tmod_left sc d.segsActive.length hslt]
  refine ⟨?_, ?_, ?_, hsr, hsl,
    by rw [hsr]; exact segSetActive_focus_eq _ _ _,
    by rw [hsl]; exact segSetActive_focus_eq _ _ _, ?_⟩
  · simp [tabsKeydown, h1, toNat_tmod_right]
  · simp [tabsKeydown, h1, hlr, toNat_tmod_left curr s.pills.length hlt]
  · simp [tabsKeydown, hkr, hkl]
  · simp [segKeydown, hkr, hkl]

/-- C3 witness: ArrowRight on the concrete capabilities state (active
pill 0 of 3) activates and focuses pill 1, and the key "Enter" is a
no-op on the concrete contrast state. -/
theorem keydown_navigation_witness :
    tabsKeydown exTabsGeom "ArrowRight" exTabsState =
      { tabsSetActive exTabsGeom ((0 + 1) % exTabsState.pills.length)
          exTabsState with
          focus := some ((0 + 1) % exTabsState.pills.length) } ∧
    segKeydown exSegGeom "Enter" exSegDom = (exSegDom, false) :=
  ⟨(keydown_navigation exTabsGeom exTabsState 0 (by decide) exSegGeom
      exSegDom 0 (by decide) "Enter" (by decide) (by decide)).1,
    (keydown_navigation exTabsGeom exTabsState 0 (by decide) exSegGeom
      exSegDom 0 (by decide) "Enter" (by decide)
      (by decide)).2.2.2.2.2.2.2⟩

/-- C4 counterexample: capabilities markup with container, two pills and
underline present but NO content panels — construction does not leave a
functional control: the guard `!panels.length` bails out, so no handler
is attached, no initial `setActive` runs and the DOM is untouched
(initialized flag `false`).  And the contrast switcher with a missing
`#do-panel` throws during construction instead of succeeding. -/
theorem init_without_panels_not_functional :
    tabsInit exTabsGeom exTabsDocNoPanels = (exTabsDocNoPanels.dom, false) ∧
    (segInit exSegGeom exSegDomNoDoPanel).2 = true := by
  decide

/-- C4 amended: with the content panels absent, neither control remains
functional.  The capabilities init guard requires a nonempty panel list,
so with container, items and underline all present but no panels it
returns before attaching any click/keyboard handler and before the
initial `setActive` — the control is inert.  The contrast switcher starts
initializing and throws on the missing panel, never reaching the thumb
update. -/
theorem init_without_panels_behaviour
    (g : TabsGeom) (d : TabsDoc) (hw : d.wrapPresent = true)
    (hp : d.dom.pills ≠ []) (hu : d.underlinePresent = true)
    (hpa : d.dom.panels = [])
    (gs : SegGeom) (dd : SegDom) (hsw : dd.wrapPresent = true)
    (hdo : dd.panelDoHidden = none) :
    tabsInit g d = (d.dom, false) ∧
    (segInit gs dd).2 = true ∧
    (segInit gs dd).1.thumb = dd.thumb := by
  refine ⟨tabsInit_guard_fail g d (Or.inr (Or.inr (Or.inl hpa))), ?_⟩
  rw [segInit_of_wrap gs dd hsw]
  obtain ⟨w, segs, th, pdo, pdont, fo⟩ := dd
  simp only at hdo
  subst hdo
  simp [segSetActive]

/-- C4 witness: evaluated on the concrete panel-less capabilities markup
and the concrete do-panel-less contrast markup. -/
theorem init_without_panels_behaviour_witness :
    tabsInit exTabsGeom exTabsDocNoPanels = (exTabsDocNoPanels.dom, false) ∧
    (segInit exSegGeom exSegDomNoDoPanel).1.thumb =
      exSegDomNoDoPanel.thumb :=
  ⟨(init_without_panels_behaviour exTabsGeom exTabsDocNoPanels rfl
      (by decide) rfl rfl exSegGeom exSegDomNoDoPanel rfl rfl).1,
    (init_without_panels_behaviour exTabsGeom exTabsDocNoPanels rfl
      (by decide) rfl rfl exSegGeom exSegDomNoDoPanel rfl rfl).2.2⟩

/-- C5 counterexample: with the concrete capabilities layout (left
padding 10, pill 2 measured at border-relative offset 80, width 40), the
underline offset written by `setActive(2)` is 80 — the pill's distance
from the container's BORDER edge — while the content-origin offset the
claim describes (accounting for left padding) is 70: the capabilities
code never subtracts the container's left padding. -/
theorem underline_offset_ignores_padding :
    (tabsSetActive exTabsGeom 2 exTabsState).underline.offsetX = 80 ∧
    specUnderlineOffset exTabsGeom 2 = 70 ∧
    (tabsSetActive exTabsGeom 2 exTabsState).underline.offsetX ≠
      specUnderlineOffset exTabsGeom 2 := by
  decide

/-- C5 amended: the indicator width written by `setActive(i)` equals item
i's measured width in both instances.  The contrast thumb's offset equals
the spec's content-origin formula exactly (`offsetLeft` is already
scroll-independent, and the code subtracts the left padding).  The
capabilities underline's offset accounts for the container's horizontal
scroll offset but is measured from the container's border edge: it
exceeds the spec's content-origin offset by exactly the container's left
padding. -/
theorem indicator_geometry
    (g : TabsGeom) (s : TabsState) (i : Nat) (hi : i < s.pills.length)
    (gs : SegGeom) (d : SegDom) (k : Nat) (hk : k < d.segsActive.length)
    (hdo : d.panelDoHidden.isSome) (hdont : d.panelDontHidden.isSome)
    (hth : d.thumb.isSome) :
    (tabsSetActive g i s).underline.width = g.pillWidth i ∧
    (tabsSetActive g i s).underline.offsetX =
      specUnderlineOffset g i + g.padLeft ∧
    (segSetActive gs k d).1.thumb =
      some { width := gs.offsetWidth k
             offsetX := specThumbOffset gs k } := by
  refine ⟨rfl, ?_, ?_⟩
  · show g.pillLeft i - g.wrapLeft + g.scrollLeft =
      specUnderlineOffset g i + g.padLeft
    unfold specUnderlineOffset
    omega
  · rw [segSetActive_def gs k d hdo hdont hth hk]
    rfl

/-- C5 witness: evaluated at pill 2 of the concrete capabilities layout
and seg 1 of the concrete contrast layout. -/
theorem indicator_geometry_witness :
    (tabsSetActive exTabsGeom 2 exTabsState).underline.width =
      exTabsGeom.pillWidth 2 ∧
    (segSetActive exSegGeom 1 exSegDom).1.thumb =
      some { width := exSegGeom.offsetWidth 1
             offsetX := specThumbOffset exSegGeom 1 } :=
  ⟨(indicator_geometry exTabsGeom exTabsState 2 (by decide) exSegGeom
      exSegDom 1 (by decide) (by decide) (by decide) (by decide)).1,
    (indicator_geometry exTabsGeom exTabsState 2 (by decide) exSegGeom
      exSegDom 1 (by decide) (by decide) (by decide) (by decide)).2.2⟩

end OkyWeb
